import Mathlib

/-!
# MediaPull orchestration core — a shallow embedding

This file embeds the orchestration core of the MediaPull host process
(`src-tauri/src/python.rs` and `src-tauri/src/commands/download.rs`) in Lean
and proves properties of the event-stream router, the process supervisor
bookkeeping, the download concurrency guard, and the argument builder.

Modelling conventions:
* Rust `f64` fields carry no arithmetic in this code — they are only copied
  from a decoded event into a notification payload — so they are modelled by
  `Rat`, which is faithful for copy/default semantics.
* `serde_json::Value` is modelled by the inductive `Json`.
* `serde_json::from_str::<PythonEvent>` is an external library call; a stdout
  line is therefore modelled as the pair of its raw text and the parse result
  (`Line.text raw parsed`), mirroring the two branches of the `match` in
  `run_python_module`.  An `Err(_)` from the `lines()` iterator is `Line.readErr`.
* OS effects (spawn, wait, kill, storing/clearing the shared process handle,
  writes to the `is_downloading` flag) are recorded as an `Effect` trace, and
  Tauri `app.emit` calls as an `Emission` trace, in program order.
-/

/-- Models `serde_json::Value`: an arbitrary structured JSON payload. -/
inductive Json where
  | null : Json
  | bool : Bool → Json
  | num : Rat → Json
  | str : String → Json
  | arr : List Json → Json
  | obj : List (String × Json) → Json

/-- Mirrors `struct PythonEvent` (python.rs:8–29): one decoded stdout event;
every field except the tag is optional with a serde default of `None`. -/
structure PythonEvent where
  event : String
  stage : Option String := none
  percent : Option Rat := none
  speed_mbps : Option Rat := none
  eta_seconds : Option Rat := none
  fps : Option Rat := none
  level : Option String := none
  message : Option String := none
  code : Option String := none
  data : Option Json := none

/-- Mirrors `struct ProgressPayload` (python.rs:31–38). -/
structure ProgressPayload where
  stage : String
  percent : Rat
  speed_mbps : Rat
  eta_seconds : Rat
  fps : Rat
deriving DecidableEq

/-- Mirrors `struct LogPayload` (python.rs:40–44). -/
structure LogPayload where
  level : String
  message : String
deriving DecidableEq

/-- One Tauri `app.emit` call, tagged with its channel name:
`download-log`, `download-progress`, `download-complete`, `download-error`,
or `download-cancelled`. -/
inductive Emission where
  | log : LogPayload → Emission
  | progress : ProgressPayload → Emission
  | complete : Json → Emission
  | error : String → Emission
  | cancelled : Emission

/-- One recorded OS / shared-state effect of the supervisor and the download
commands, in program order. -/
inductive Effect where
  | spawn : String → List String → Effect
  | storeHandle : Effect
  | wait : Effect
  | clearHandle : Effect
  | kill : Effect
  | setFlag : Bool → Effect
deriving DecidableEq

/-- One line delivered by the stdout `lines()` iterator (python.rs:170–174):
either a read error (skipped by `continue`) or the raw text of the line
together with the result of `serde_json::from_str::<PythonEvent>` on it
(`none` when deserialization fails). -/
inductive Line where
  | readErr : Line
  | text : String → Option PythonEvent → Line

/-- The mutable locals of the stdout loop in `run_python_module`
(python.rs:163–166), plus the trace of emissions made so far. -/
structure RouterState where
  emitted : List Emission
  result : Option Json
  error_msg : Option String
  error_code : Option String

def RouterState.init : RouterState :=
  { emitted := [], result := none, error_msg := none, error_code := none }

/-- Models Rust `str::trim().is_empty()`: every character is whitespace.
(Lean's `Char.isWhitespace` covers the ASCII whitespace classes; the
Unicode-only whitespace code points play no role in any claim.) -/
def isBlank (s : String) : Bool :=
  s.data.all Char.isWhitespace

/-- Models Rust `str::trim`: strip leading and trailing whitespace. -/
def trimStr (s : String) : String :=
  ⟨((s.data.dropWhile Char.isWhitespace).reverse.dropWhile Char.isWhitespace).reverse⟩

/-- Split a character list at `'\n'`; `n` separators yield `n + 1` pieces. -/
def splitNl (cs : List Char) : List (List Char) :=
  match cs with
  | [] => [[]]
  | c :: rest =>
    match splitNl rest with
    | [] => [[]]
    | p :: ps => if c = '\n' then [] :: p :: ps else (c :: p) :: ps

/-- Strip one trailing `'\r'`, as Rust `str::lines` does per line. -/
def stripCr (p : List Char) : List Char :=
  match p.getLast? with
  | some c => if c = '\r' then p.dropLast else p
  | none => p

/-- `sep`-separated concatenation, as Rust `[&str]::join`. -/
def joinSep (sep : String) : List String → String
  | [] => ""
  | [x] => x
  | x :: y :: xs => x ++ sep ++ joinSep sep (y :: xs)

/-- The progress payload built at python.rs:193–199: each optional field of
the decoded event defaults to the empty string / `0.0` when absent. -/
def mkProgress (e : PythonEvent) : ProgressPayload :=
  { stage := e.stage.getD ""
    percent := e.percent.getD 0
    speed_mbps := e.speed_mbps.getD 0
    eta_seconds := e.eta_seconds.getD 0
    fps := e.fps.getD 0 }

/-- One iteration of the stdout loop (python.rs:170–216): skip read errors and
whitespace-only lines; forward undecodable lines as a debug log carrying the
raw text; dispatch decoded events on their tag, defaulting absent optional
fields; store `result`/`error` payloads; ignore unrecognized tags. -/
def processLine (st : RouterState) (l : Line) : RouterState :=
  match l with
  | .readErr => st
  | .text raw parsed =>
    if isBlank raw then st
    else
      match parsed with
      | none => { st with emitted := st.emitted ++ [.log ⟨"debug", raw⟩] }
      | some e =>
        match e.event with
        | "progress" =>
            { st with emitted := st.emitted ++ [.progress (mkProgress e)] }
        | "log" =>
            { st with emitted := st.emitted ++
                [.log ⟨e.level.getD "info", e.message.getD ""⟩] }
        | "result" => { st with result := e.data }
        | "error" => { st with error_code := e.code, error_msg := e.message }
        | _ => st

/-- Models Rust `str::lines()`: split at `\n`, strip one trailing `\r` from
each piece, and ignore a final line terminator. -/
def rustLines (s : String) : List String :=
  let parts := splitNl s.data
  let parts := if parts.getLast? = some [] then parts.dropLast else parts
  parts.map (fun p => ⟨stripCr p⟩)

/-- The stderr summary built for the no-result error (python.rs:249–252):
non-blank stderr lines joined by `" | "`. -/
def stderrSummary (stderr_output : String) : String :=
  joinSep " | " ((rustLines stderr_output).filter (fun l => !(isBlank l)))

/-- The debug logs emitted for captured stderr (python.rs:229–240): when the
captured text is non-empty, the first 20 lines, trimmed, the blank ones
skipped, each prefixed with `[stderr] `. -/
def stderrLogs (stderr_output : String) : List Emission :=
  if stderr_output.data.isEmpty then []
  else
    ((rustLines stderr_output).take 20).filterMap (fun l =>
      let t := trimStr l
      if t.data.isEmpty then none else some (.log ⟨"debug", "[stderr] " ++ t⟩))

/-- The error message of the absent-result branch (python.rs:248–257). -/
def absentResultMsg (module python_parent stderr_output : String) : String :=
  if (stderrSummary stderr_output).data.isEmpty then
    "Python module '" ++ module ++ "' returned no result (PYTHONPATH=" ++ python_parent ++ ")"
  else
    "Python error: " ++ stderrSummary stderr_output

/-- The outcome computation after the loop (python.rs:242–258): a stored error
message wins, rendered `code: message` with code defaulting to `unknown`;
else a stored result succeeds; else the absent-result error. -/
def finalize (module python_parent stderr_output : String) (st : RouterState) :
    Except String Json :=
  match st.error_msg with
  | some msg => .error ((st.error_code.getD "unknown") ++ ": " ++ msg)
  | none =>
    match st.result with
    | some data => .ok data
    | none => .error (absentResultMsg module python_parent stderr_output)

/-- What one invocation of `run_python_module` produced: the returned value,
the emissions and effect actions in program order, and the content of the
shared process handle at return (`none` when no handle was supplied,
`some b` with `b` = "the handle references a child" otherwise). -/
structure RunOutput where
  outcome : Except String Json
  emissions : List Emission
  actions : List Effect
  handleAfter : Option Bool

/-- Embeds `run_python_module` (python.rs:114–259).  `python` and
`python_parent` stand for the environment-dependent results of `find_python`
and of the `PYTHONPATH` computation; `handle` is the supplied cancellation
handle together with its current content; `spawnErr` is `some e` when
`cmd.spawn()` fails; `stdoutLines` is the stdout line sequence and
`stderr_output` the text captured by the stderr drain thread.  The model is
the sequential execution (no concurrent `kill_process` interleaved). -/
def run_python_module (python python_parent module : String) (args : List String)
    (handle : Option Bool) (spawnErr : Option String)
    (stdoutLines : List Line) (stderr_output : String) : RunOutput :=
  let startLog : Emission :=
    .log ⟨"debug", "Python: " ++ python ++ " -m python." ++ module ++
      " | PYTHONPATH=" ++ python_parent⟩
  match spawnErr with
  | some e =>
      { outcome := .error ("Failed to spawn Python: " ++ e)
        emissions := [startLog]
        actions := []
        handleAfter := handle }
  | none =>
      let st := stdoutLines.foldl processLine RouterState.init
      { outcome := finalize module python_parent stderr_output st
        emissions := [startLog] ++ st.emitted ++ stderrLogs stderr_output
        actions := [.spawn module args] ++
          (match handle with | some _ => [.storeHandle] | none => []) ++
          (match handle with | some _ => [.wait, .clearHandle] | none => [])
        handleAfter := match handle with | some _ => some false | none => none }

/-- Embeds `kill_process` (python.rs:262–269) on the content of the shared
handle: kill and reap when a child is referenced, then clear the reference
unconditionally.  Returns the effect trace and the handle content after. -/
def kill_process (holds : Bool) : List Effect × Bool :=
  if holds then ([.kill, .wait, .clearHandle], false)
  else ([.clearHandle], false)

/-- Mirrors `struct ChapterRequest` (download.rs:22–27). -/
structure ChapterRequest where
  title : String
  start_time : Rat
  end_time : Rat

/-- Mirrors `struct DownloadRequest` (download.rs:29–44); `per_resolution`
models the `HashMap<String, u32>` as an association list in iteration order. -/
structure DownloadRequest where
  url : String
  quality : String
  output_dir : String
  audio_only : Bool
  sponsorblock : Bool
  trim_start : Option String := none
  trim_end : Option String := none
  cookies_browser : Option String := none
  cookies_profile : Option String := none
  bitrate_mode : Option String := none
  custom_bitrate : Option Nat := none
  per_resolution : Option (List (String × Nat)) := none
  chapters : Option (List ChapterRequest) := none

/-- Models `serde_json::to_string` on one chapter (string escaping elided —
the rendered text is opaque to every claim). -/
def chapterToJson (c : ChapterRequest) : String :=
  "\x7b\"title\":\"" ++ c.title ++ "\",\"start_time\":" ++ toString c.start_time ++
    ",\"end_time\":" ++ toString c.end_time ++ "\x7d"

/-- Models `serde_json::to_string(&request.chapters)` (download.rs:84), which
is infallible for this shape: `None` renders as `null`, `Some` as an array. -/
def chaptersToJson (cs : Option (List ChapterRequest)) : String :=
  match cs with
  | none => "null"
  | some l => "[" ++ String.intercalate "," (l.map chapterToJson) ++ "]"

/-- Models `serde_json::to_string` on the per-resolution bitrate map
(download.rs:115), infallible for this shape. -/
def perResToJson (m : List (String × Nat)) : String :=
  "\x7b" ++ String.intercalate ","
    (m.map (fun p => "\"" ++ p.1 ++ "\":" ++ toString p.2)) ++ "\x7d"

/-- Mirrors `has_chapters` (download.rs:74):
`request.chapters.as_ref().map_or(false, |c| !c.is_empty())`. -/
def hasChapters (request : DownloadRequest) : Bool :=
  match request.chapters with
  | none => false
  | some c => !c.isEmpty

/-- The argument vector built by `start_download` (download.rs:66–119), in
push order. -/
def buildDownloadArgs (request : DownloadRequest) : List String :=
  ["run", "--url", request.url, "--quality", request.quality,
    "--output-dir", request.output_dir]
  ++ (if request.audio_only then ["--audio-only"] else [])
  ++ (if request.sponsorblock && !hasChapters request then ["--sponsorblock"] else [])
  ++ (if hasChapters request then ["--chapters", chaptersToJson request.chapters] else [])
  ++ (match request.trim_start with | some s => ["--trim-start", s] | none => [])
  ++ (match request.trim_end with | some s => ["--trim-end", s] | none => [])
  ++ (match request.cookies_browser with | some s => ["--cookies-browser", s] | none => [])
  ++ (match request.cookies_profile with | some s => ["--cookies-profile", s] | none => [])
  ++ (match request.bitrate_mode with | some s => ["--bitrate-mode", s] | none => [])
  ++ (match request.custom_bitrate with | some n => ["--custom-bitrate", toString n] | none => [])
  ++ (match request.per_resolution with | some m => ["--per-res-bitrates", perResToJson m] | none => [])

/-- Mirrors `struct DownloadState` (download.rs:8–11) by content: whether the
shared process handle currently references a child, and the
`is_downloading` flag. -/
structure DownloadState where
  processHolds : Bool
  is_downloading : Bool
deriving DecidableEq

/-- What one `start_download` call produced: its return value, the state it
leaves behind, and the emission and effect traces in program order. -/
structure StartOutput where
  outcome : Except String Json
  state : DownloadState
  emissions : List Emission
  actions : List Effect

/-- Embeds `start_download` (download.rs:46–148): reject when the flag is
set; otherwise set the flag, emit the pipeline-start log, build the argument
vector, run the worker with the shared handle, reset the flag, and emit the
completion or error event.  Environment inputs are as in
`run_python_module`. -/
def start_download (st : DownloadState) (python python_parent : String)
    (request : DownloadRequest) (spawnErr : Option String)
    (stdoutLines : List Line) (stderr_output : String) : StartOutput :=
  if st.is_downloading then
    { outcome := .error "A download is already in progress"
      state := st, emissions := [], actions := [] }
  else
    let args := buildDownloadArgs request
    let r := run_python_module python python_parent "download" args
      (some st.processHolds) spawnErr stdoutLines stderr_output
    let completion : Emission :=
      match r.outcome with
      | .ok d => .complete d
      | .error e => .error e
    { outcome := r.outcome
      state := { processHolds := (r.handleAfter.getD st.processHolds)
                 is_downloading := false }
      emissions := [.log ⟨"info", "Starting download pipeline..."⟩] ++
        r.emissions ++ [completion]
      actions := [.setFlag true] ++ r.actions ++ [.setFlag false] }

/-- What one `cancel_download` call produced. -/
structure CancelOutput where
  outcome : Except String Unit
  state : DownloadState
  emissions : List Emission
  actions : List Effect

/-- Embeds `cancel_download` (download.rs:150–164): kill the referenced
process if any, clear the flag, and emit the warning log and the
cancellation notification.  Always returns `Ok(())`. -/
def cancel_download (st : DownloadState) : CancelOutput :=
  let k := kill_process st.processHolds
  { outcome := .ok ()
    state := { processHolds := k.2, is_downloading := false }
    emissions := [.log ⟨"warning", "Download cancelled by user"⟩, .cancelled]
    actions := k.1 ++ [.setFlag false] }

/-! ## Helper lemmas about the line router -/

/-- The emissions contributed by one stdout line, independent of the router
state it meets. -/
def lineEmits (l : Line) : List Emission :=
  match l with
  | .readErr => []
  | .text raw parsed =>
    if isBlank raw then []
    else
      match parsed with
      | none => [.log ⟨"debug", raw⟩]
      | some e =>
        match e.event with
        | "progress" => [.progress (mkProgress e)]
        | "log" => [.log ⟨e.level.getD "info", e.message.getD ""⟩]
        | _ => []

/-- The emissions contributed by a sequence of stdout lines. -/
def emitsOf : List Line → List Emission
  | [] => []
  | l :: ls => lineEmits l ++ emitsOf ls

/-- A line that the loop dispatches to the `"error"` arm (a decoded,
non-blank line tagged `error`). -/
def isErrorLine (l : Line) : Bool :=
  match l with
  | .text raw (some e) => !(isBlank raw) && e.event == "error"
  | _ => false

/-- A line that the loop dispatches to the `"result"` arm. -/
def isResultLine (l : Line) : Bool :=
  match l with
  | .text raw (some e) => !(isBlank raw) && e.event == "result"
  | _ => false

/-- A line that the loop dispatches to a terminal arm. -/
def isTerminalLine (l : Line) : Bool :=
  isResultLine l || isErrorLine l

theorem processLine_emitted (st : RouterState) (l : Line) :
    (processLine st l).emitted = st.emitted ++ lineEmits l := by
  cases l with
  | readErr => simp [processLine, lineEmits]
  | text raw parsed =>
    unfold processLine lineEmits
    by_cases hraw : isBlank raw = true
    · simp [hraw]
    · cases parsed with
      | none => simp [hraw]
      | some e =>
        simp only [hraw, if_false, Bool.false_eq_true]
        split <;> simp_all

theorem foldl_emitted (lines : List Line) (st : RouterState) :
    (lines.foldl processLine st).emitted = st.emitted ++ emitsOf lines := by
  induction lines generalizing st with
  | nil => simp [emitsOf]
  | cons l ls ih =>
    simp [emitsOf, List.foldl_cons, ih, processLine_emitted, List.append_assoc]

theorem processLine_error_fields (st : RouterState) (l : Line)
    (h : isErrorLine l = false) :
    (processLine st l).error_msg = st.error_msg ∧
      (processLine st l).error_code = st.error_code := by
  cases l with
  | readErr => exact ⟨rfl, rfl⟩
  | text raw parsed =>
    unfold processLine
    by_cases hraw : isBlank raw = true
    · simp [hraw]
    · cases parsed with
      | none => simp [hraw]
      | some e =>
        simp only [isErrorLine, hraw, Bool.not_false, Bool.true_and, beq_iff_eq] at h
        simp only [hraw, if_false, Bool.false_eq_true]
        split <;> simp_all

theorem processLine_result_field (st : RouterState) (l : Line)
    (h : isResultLine l = false) :
    (processLine st l).result = st.result := by
  cases l with
  | readErr => rfl
  | text raw parsed =>
    unfold processLine
    by_cases hraw : isBlank raw = true
    · simp [hraw]
    · cases parsed with
      | none => simp [hraw]
      | some e =>
        simp only [isResultLine, hraw, Bool.not_false, Bool.true_and, beq_iff_eq] at h
        simp only [hraw, if_false, Bool.false_eq_true]
        split <;> simp_all

theorem foldl_error_fields (lines : List Line) (st : RouterState)
    (h : ∀ l ∈ lines, isErrorLine l = false) :
    (lines.foldl processLine st).error_msg = st.error_msg ∧
      (lines.foldl processLine st).error_code = st.error_code := by
  induction lines generalizing st with
  | nil => exact ⟨rfl, rfl⟩
  | cons l ls ih =>
    have h1 := processLine_error_fields st l (h l (List.mem_cons_self l ls))
    have h2 := ih (processLine st l) (fun x hx => h x (List.mem_cons_of_mem l hx))
    exact ⟨h2.1.trans h1.1, h2.2.trans h1.2⟩

theorem foldl_result_field (lines : List Line) (st : RouterState)
    (h : ∀ l ∈ lines, isResultLine l = false) :
    (lines.foldl processLine st).result = st.result := by
  induction lines generalizing st with
  | nil => rfl
  | cons l ls ih =>
    have h1 := processLine_result_field st l (h l (List.mem_cons_self l ls))
    have h2 := ih (processLine st l) (fun x hx => h x (List.mem_cons_of_mem l hx))
    exact h2.trans h1

/-! ## Dispatch lemmas: one per arm of the stdout loop -/

theorem processLine_junk (st : RouterState) (raw : String)
    (hraw : isBlank raw = false) :
    processLine st (.text raw none) =
      { st with emitted := st.emitted ++ [.log ⟨"debug", raw⟩] } := by
  simp [processLine, hraw]

theorem processLine_progress (st : RouterState) (raw : String) (e : PythonEvent)
    (hraw : isBlank raw = false) (he : e.event = "progress") :
    processLine st (.text raw (some e)) =
      { st with emitted := st.emitted ++ [.progress (mkProgress e)] } := by
  unfold processLine
  simp only [hraw, Bool.false_eq_true, if_false, he]

theorem processLine_log (st : RouterState) (raw : String) (e : PythonEvent)
    (hraw : isBlank raw = false) (he : e.event = "log") :
    processLine st (.text raw (some e)) =
      { st with emitted := st.emitted ++ [.log ⟨e.level.getD "info", e.message.getD ""⟩] } := by
  unfold processLine
  simp only [hraw, Bool.false_eq_true, if_false, he]

theorem processLine_result (st : RouterState) (raw : String) (e : PythonEvent)
    (hraw : isBlank raw = false) (he : e.event = "result") :
    processLine st (.text raw (some e)) = { st with result := e.data } := by
  unfold processLine
  simp only [hraw, Bool.false_eq_true, if_false, he]

theorem processLine_error (st : RouterState) (raw : String) (e : PythonEvent)
    (hraw : isBlank raw = false) (he : e.event = "error") :
    processLine st (.text raw (some e)) =
      { st with error_code := e.code, error_msg := e.message } := by
  unfold processLine
  simp only [hraw, Bool.false_eq_true, if_false, he]

theorem processLine_unknown_tag (st : RouterState) (raw : String) (e : PythonEvent)
    (h1 : e.event ≠ "progress") (h2 : e.event ≠ "log")
    (h3 : e.event ≠ "result") (h4 : e.event ≠ "error") :
    processLine st (.text raw (some e)) = st := by
  unfold processLine
  by_cases hraw : isBlank raw = true
  · simp [hraw]
  · simp only [hraw, Bool.false_eq_true, if_false]

theorem finalize_error (module pp stderr : String) (st : RouterState) (m : String)
    (h : st.error_msg = some m) :
    finalize module pp stderr st = .error ((st.error_code.getD "unknown") ++ ": " ++ m) := by
  simp [finalize, h]

theorem finalize_ok (module pp stderr : String) (st : RouterState) (d : Json)
    (hm : st.error_msg = none) (hr : st.result = some d) :
    finalize module pp stderr st = .ok d := by
  simp [finalize, hm, hr]

theorem finalize_absent (module pp stderr : String) (st : RouterState)
    (hm : st.error_msg = none) (hr : st.result = none) :
    finalize module pp stderr st = .error (absentResultMsg module pp stderr) := by
  simp [finalize, hm, hr]

/-! ## Run-level accessor lemmas -/

theorem run_outcome_eq (python pp module : String) (args : List String)
    (handle : Option Bool) (lines : List Line) (stderr : String) :
    (run_python_module python pp module args handle none lines stderr).outcome
      = finalize module pp stderr (lines.foldl processLine RouterState.init) := by
  cases handle <;> rfl

theorem run_emissions_eq (python pp module : String) (args : List String)
    (handle : Option Bool) (lines : List Line) (stderr : String) :
    (run_python_module python pp module args handle none lines stderr).emissions
      = Emission.log ⟨"debug", "Python: " ++ python ++ " -m python." ++ module ++
          " | PYTHONPATH=" ++ pp⟩ ::
        ((lines.foldl processLine RouterState.init).emitted ++ stderrLogs stderr) := by
  cases handle <;> rfl

theorem run_actions_with_handle (python pp module : String) (args : List String)
    (holds : Bool) (lines : List Line) (stderr : String) :
    (run_python_module python pp module args (some holds) none lines stderr).actions
      = [.spawn module args, .storeHandle, .wait, .clearHandle] := rfl

theorem run_actions_no_handle (python pp module : String) (args : List String)
    (lines : List Line) (stderr : String) :
    (run_python_module python pp module args none none lines stderr).actions
      = [.spawn module args] := rfl

theorem run_handleAfter_with_handle (python pp module : String) (args : List String)
    (holds : Bool) (lines : List Line) (stderr : String) :
    (run_python_module python pp module args (some holds) none lines stderr).handleAfter
      = some false := rfl

/-- The absent-result error message is never the empty string (both format
strings start with a non-empty literal). -/
theorem absentResultMsg_ne_empty (module pp s : String) :
    absentResultMsg module pp s ≠ "" := by
  unfold absentResultMsg
  intro h
  have h1 : ("Python module '" : String).length = 15 := rfl
  have h2 : (")" : String).length = 1 := rfl
  have h3 : ("Python error: " : String).length = 14 := rfl
  have h0 : ("" : String).length = 0 := rfl
  split at h <;>
    · have hlen := congrArg String.length h
      simp only [String.length_append] at hlen
      omega

/-! ## Claim C1 -/

/-- Claim C1 counterexample: a worker that emits an `error` event and later a
`result` event resolves to the error, not to the last terminal event's
success payload — `error_msg` is never cleared by a later `result` and wins
at finalization. -/
theorem result_after_error_does_not_override_cex :
    (run_python_module "python3" "/app" "download" [] none none
        [Line.text "e" (some { event := "error", code := some "E", message := some "boom" }),
         Line.text "r" (some { event := "result", data := some (.str "ok") })] "").outcome
      = .error "E: boom" ∧
    (run_python_module "python3" "/app" "download" [] none none
        [Line.text "e" (some { event := "error", code := some "E", message := some "boom" }),
         Line.text "r" (some { event := "result", data := some (.str "ok") })] "").outcome
      ≠ .ok (.str "ok") := by
  refine ⟨rfl, ?_⟩
  intro h
  rw [show (run_python_module "python3" "/app" "download" [] none none
      [Line.text "e" (some { event := "error", code := some "E", message := some "boom" }),
       Line.text "r" (some { event := "result", data := some (.str "ok") })] "").outcome
      = .error "E: boom" from rfl] at h
  exact Except.noConfusion h

/-- Claim C1 (amended): among terminal events, the last `error` event with a
message determines the outcome whenever one exists, regardless of any
`result` events before or after it — so `result` then `error` resolves to
the error (as claimed), but `error` then `result` also resolves to the
error: last-write-wins holds only within each terminal kind, and errors take
priority at finalization. -/
theorem last_terminal_event_error_priority
    (python pp module : String) (args : List String) (handle : Option Bool)
    (stderr : String) (L1 L2 : List Line) (rawE m : String) (eE : PythonEvent)
    (hraw : isBlank rawE = false) (he : eE.event = "error") (hm : eE.message = some m)
    (hL2 : ∀ l ∈ L2, isErrorLine l = false) :
    (run_python_module python pp module args handle none
        (L1 ++ Line.text rawE (some eE) :: L2) stderr).outcome
      = .error ((eE.code.getD "unknown") ++ ": " ++ m) := by
  rw [run_outcome_eq]
  rw [List.foldl_append, List.foldl_cons, processLine_error _ _ _ hraw he]
  have hpres := foldl_error_fields L2
    { (L1.foldl processLine RouterState.init) with error_code := eE.code, error_msg := eE.message }
    hL2
  rw [finalize_error _ _ _ _ m (by rw [hpres.1]; exact hm), hpres.2]

/-- Witness for `last_terminal_event_error_priority` at a concrete input. -/
theorem last_terminal_event_error_priority_witness :
    (run_python_module "py" "/p" "download" [] none none
        ([] ++ Line.text "e" (some { event := "error", code := some "E", message := some "boom" }) ::
          [Line.text "r" (some { event := "result", data := some (.str "ok") })]) "").outcome
      = .error "E: boom" :=
  last_terminal_event_error_priority "py" "/p" "download" [] none "" []
    [Line.text "r" (some { event := "result", data := some (.str "ok") })]
    "e" "boom" { event := "error", code := some "E", message := some "boom" }
    (by decide) rfl rfl (by decide)

/-! ## Claim C10 -/

/-- Holds when a line is not a terminal event carrying a payload: any
non-terminal or undecodable line, a `result` event with no `data`, or an
`error` event with no `message`. -/
def noTerminalPayload (l : Line) : Bool :=
  match l with
  | .text _ (some e) =>
      if e.event == "result" then e.data.isNone
      else if e.event == "error" then e.message.isNone
      else true
  | _ => true

theorem processLine_noTerminalPayload (st : RouterState) (l : Line)
    (h : noTerminalPayload l = true) (hr : st.result = none) (hm : st.error_msg = none) :
    (processLine st l).result = none ∧ (processLine st l).error_msg = none := by
  cases l with
  | readErr => exact ⟨hr, hm⟩
  | text raw parsed =>
    unfold processLine
    by_cases hraw : isBlank raw = true
    · simp [hraw, hr, hm]
    · cases parsed with
      | none => simp [hraw, hr, hm]
      | some e =>
        simp only [noTerminalPayload] at h
        simp only [hraw, Bool.false_eq_true, if_false]
        split <;> simp_all [Option.isNone_iff_eq_none]

theorem foldl_noTerminalPayload (lines : List Line) (st : RouterState)
    (h : ∀ l ∈ lines, noTerminalPayload l = true)
    (hr : st.result = none) (hm : st.error_msg = none) :
    (lines.foldl processLine st).result = none ∧
      (lines.foldl processLine st).error_msg = none := by
  induction lines generalizing st with
  | nil => exact ⟨hr, hm⟩
  | cons l ls ih =>
    have h1 := processLine_noTerminalPayload st l (h l (List.mem_cons_self l ls)) hr hm
    exact ih (processLine st l) (fun x hx => h x (List.mem_cons_of_mem l hx)) h1.1 h1.2

/-- Claim C10 counterexample: a `result` event with no `data` field is not
ignored — it overwrites a previously stored result payload with "absent", so
the invocation resolves as the absent-result error instead of the earlier
success payload.  The third conjunct shows the same stream without the
payload-less line resolves to that success payload. -/
theorem payloadless_result_clears_cex :
    (run_python_module "python3" "/app" "download" [] none none
        [Line.text "r1" (some { event := "result", data := some (.str "d") }),
         Line.text "r2" (some { event := "result" })] "").outcome
      = .error "Python module 'download' returned no result (PYTHONPATH=/app)" ∧
    (run_python_module "python3" "/app" "download" [] none none
        [Line.text "r1" (some { event := "result", data := some (.str "d") }),
         Line.text "r2" (some { event := "result" })] "").outcome
      ≠ .ok (.str "d") ∧
    (run_python_module "python3" "/app" "download" [] none none
        [Line.text "r1" (some { event := "result", data := some (.str "d") })] "").outcome
      = .ok (.str "d") := by
  refine ⟨rfl, ?_, rfl⟩
  intro h
  rw [show (run_python_module "python3" "/app" "download" [] none none
      [Line.text "r1" (some { event := "result", data := some (.str "d") }),
       Line.text "r2" (some { event := "result" })] "").outcome
      = .error "Python module 'download' returned no result (PYTHONPATH=/app)" from rfl] at h
  exact Except.noConfusion h

/-- Claim C10 (amended): a payload-less terminal event is recorded — it
overwrites the stored payload of its kind with "absent" (first two
conjuncts) — and a worker all of whose terminal events are payload-less
still resolves as the absent-result error (third conjunct).  It is not
treated "as if the line had never been emitted": see the counterexample. -/
theorem payloadless_terminal_events_absent_result :
    (∀ (st : RouterState) (raw : String) (e : PythonEvent),
        isBlank raw = false → e.event = "result" → e.data = none →
        (processLine st (.text raw (some e))).result = none) ∧
    (∀ (st : RouterState) (raw : String) (e : PythonEvent),
        isBlank raw = false → e.event = "error" → e.message = none →
        (processLine st (.text raw (some e))).error_msg = none) ∧
    (∀ (python pp module : String) (args : List String) (handle : Option Bool)
        (stderr : String) (lines : List Line),
        (∀ l ∈ lines, noTerminalPayload l = true) →
        (run_python_module python pp module args handle none lines stderr).outcome
          = .error (absentResultMsg module pp stderr)) := by
  refine ⟨?_, ?_, ?_⟩
  · intro st raw e hraw he hd
    rw [processLine_result st raw e hraw he]
    exact hd
  · intro st raw e hraw he hm
    rw [processLine_error st raw e hraw he]
    exact hm
  · intro python pp module args handle stderr lines h
    rw [run_outcome_eq]
    have hf := foldl_noTerminalPayload lines RouterState.init h rfl rfl
    exact finalize_absent module pp stderr _ hf.2 hf.1

/-- Witness for `payloadless_terminal_events_absent_result` at concrete
inputs. -/
theorem payloadless_terminal_events_absent_result_witness :
    (processLine RouterState.init
        (.text "r" (some { event := "result" }))).result = none ∧
    (processLine RouterState.init
        (.text "e" (some { event := "error" }))).error_msg = none ∧
    (run_python_module "py" "/p" "download" [] none none
        [Line.text "e" (some { event := "error" })] "").outcome
      = .error (absentResultMsg "download" "/p" "") :=
  ⟨payloadless_terminal_events_absent_result.1 RouterState.init "r"
      { event := "result" } (by decide) rfl rfl,
   payloadless_terminal_events_absent_result.2.1 RouterState.init "e"
      { event := "error" } (by decide) rfl rfl,
   payloadless_terminal_events_absent_result.2.2 "py" "/p" "download" [] none ""
      [Line.text "e" (some { event := "error" })] (by decide)⟩

/-! ## Claim C5 -/

/-- Claim C5: a worker that exits having emitted neither a `result` nor an
`error` event fails with the absent-result error; its message is non-empty,
and when diagnostic (stderr) text was captured, the message is the captured
summary appended to the `Python error: ` prefix. -/
theorem absent_result_on_no_terminal_event
    (python pp module : String) (args : List String) (handle : Option Bool)
    (lines : List Line) (stderr : String)
    (h : ∀ l ∈ lines, isTerminalLine l = false) :
    (run_python_module python pp module args handle none lines stderr).outcome
        = .error (absentResultMsg module pp stderr) ∧
    absentResultMsg module pp stderr ≠ "" ∧
    (stderrSummary stderr ≠ "" →
      absentResultMsg module pp stderr = "Python error: " ++ stderrSummary stderr) := by
  refine ⟨?_, absentResultMsg_ne_empty module pp stderr, ?_⟩
  · rw [run_outcome_eq]
    have hr := foldl_result_field lines RouterState.init (fun l hl => by
      have := h l hl
      simp only [isTerminalLine, Bool.or_eq_false_iff] at this
      exact this.1)
    have hm := (foldl_error_fields lines RouterState.init (fun l hl => by
      have := h l hl
      simp only [isTerminalLine, Bool.or_eq_false_iff] at this
      exact this.2)).1
    exact finalize_absent module pp stderr _ hm hr
  · intro hs
    unfold absentResultMsg
    have : (stderrSummary stderr).data.isEmpty = false := by
      cases he : (stderrSummary stderr).data.isEmpty
      · rfl
      · exfalso
        apply hs
        have hnil : (stderrSummary stderr).data = [] := by
          simpa [List.isEmpty_iff] using he
        exact String.ext (by rw [hnil])
    simp [this]

/-- Witness for `absent_result_on_no_terminal_event` at a concrete input. -/
theorem absent_result_on_no_terminal_event_witness :
    (run_python_module "py" "/p" "download" [] none none
        [Line.text "hello" none] "oops").outcome
        = .error (absentResultMsg "download" "/p" "oops") ∧
    absentResultMsg "download" "/p" "oops" ≠ "" ∧
    (stderrSummary "oops" ≠ "" →
      absentResultMsg "download" "/p" "oops" = "Python error: " ++ stderrSummary "oops") :=
  absent_result_on_no_terminal_event "py" "/p" "download" [] none
    [Line.text "hello" none] "oops" (by decide)

/-! ## Claim C4 -/

/-- Claim C4 counterexample: a decoded envelope with an unrecognized `event`
tag (here `custom`) is silently dropped by the `_ => {}` arm — the run's
emission trace holds only the launch debug log, not a debug log carrying the
raw line — contradicting "forwarded as exactly one debug-level log
notification". -/
theorem unrecognized_tag_dropped_cex :
    (run_python_module "python3" "/app" "download" [] none none
        [Line.text "x" (some { event := "custom" })] "").emissions
      = [.log ⟨"debug", "Python: python3 -m python.download | PYTHONPATH=/app"⟩] := rfl

/-- Claim C4 (amended): a non-blank line that fails to decode as the
envelope is forwarded as exactly one debug log carrying the raw line text,
leaving the stored terminal state untouched; a decoded envelope with an
unrecognized tag is silently ignored (no notification), also leaving the
terminal state untouched.  In both cases the terminal outcome is
unaffected. -/
theorem raw_line_debug_forwarding (st : RouterState) (raw : String) (e : PythonEvent)
    (hraw : isBlank raw = false)
    (h1 : e.event ≠ "progress") (h2 : e.event ≠ "log")
    (h3 : e.event ≠ "result") (h4 : e.event ≠ "error") :
    processLine st (.text raw none) =
      { st with emitted := st.emitted ++ [.log ⟨"debug", raw⟩] } ∧
    processLine st (.text raw (some e)) = st :=
  ⟨processLine_junk st raw hraw, processLine_unknown_tag st raw e h1 h2 h3 h4⟩

/-- Witness for `raw_line_debug_forwarding` at a concrete input. -/
theorem raw_line_debug_forwarding_witness :
    processLine RouterState.init (.text "oops not json" none) =
      { RouterState.init with emitted := [.log ⟨"debug", "oops not json"⟩] } ∧
    processLine RouterState.init (.text "x" (some { event := "custom" })) =
      RouterState.init :=
  ⟨(raw_line_debug_forwarding RouterState.init "oops not json" { event := "custom" }
      (by decide) (by decide) (by decide) (by decide) (by decide)).1,
   (raw_line_debug_forwarding RouterState.init "x" { event := "custom" }
      (by decide) (by decide) (by decide) (by decide) (by decide)).2⟩

/-! ## Claim C8 -/

/-- Claim C8: every decoded line tagged `progress` is forwarded as one
progress notification whose optional fields default to the empty string /
`0.0` when absent from the input, and the stored terminal state is
untouched. -/
theorem progress_defaults_filled (st : RouterState) (raw : String) (e : PythonEvent)
    (hraw : isBlank raw = false) (he : e.event = "progress") :
    processLine st (.text raw (some e)) =
      { st with emitted := st.emitted ++
          [.progress { stage := e.stage.getD "", percent := e.percent.getD 0,
                       speed_mbps := e.speed_mbps.getD 0,
                       eta_seconds := e.eta_seconds.getD 0,
                       fps := e.fps.getD 0 }] } :=
  processLine_progress st raw e hraw he

/-- Witness for `progress_defaults_filled`: an input with every optional
field absent yields the all-defaults payload. -/
theorem progress_defaults_filled_witness :
    processLine RouterState.init (.text "p" (some { event := "progress" })) =
      { RouterState.init with emitted := [.progress ⟨"", 0, 0, 0, 0⟩] } :=
  progress_defaults_filled RouterState.init "p" { event := "progress" } (by decide) rfl

/-! ## Claim C7 -/

/-- Projection selecting progress notifications out of an emission trace. -/
def progressOf : Emission → Option ProgressPayload
  | .progress p => some p
  | _ => none

theorem stderrLogs_no_progress (s : String) :
    (stderrLogs s).filterMap progressOf = [] := by
  unfold stderrLogs
  split
  · rfl
  · rw [List.filterMap_filterMap]
    refine List.filterMap_eq_nil_iff.mpr (fun a _ => ?_)
    by_cases hb : (trimStr a).data.isEmpty <;> simp [hb, progressOf]

theorem filterMap_progress_mk (pls : List (String × PythonEvent)) :
    (pls.map (fun p => Emission.progress (mkProgress p.2))).filterMap progressOf
      = pls.map (fun p => mkProgress p.2) := by
  induction pls with
  | nil => rfl
  | cons x xs ih => simp [progressOf, ih]

theorem foldl_progress_lines (pls : List (String × PythonEvent)) (st : RouterState)
    (h : ∀ p ∈ pls, isBlank p.1 = false ∧ p.2.event = "progress") :
    (pls.map (fun p => Line.text p.1 (some p.2))).foldl processLine st =
      { st with emitted := st.emitted ++
          pls.map (fun p => Emission.progress (mkProgress p.2)) } := by
  induction pls generalizing st with
  | nil => simp
  | cons p ps ih =>
    have hp := h p (List.mem_cons_self p ps)
    rw [List.map_cons, List.foldl_cons, processLine_progress st p.1 p.2 hp.1 hp.2]
    rw [ih _ (fun x hx => h x (List.mem_cons_of_mem p hx))]
    simp [List.append_assoc]

/-- Claim C7: a worker that emits a sequence of progress events followed by
one `result` line with a payload yields exactly those progress
notifications, in emission order, and the invocation succeeds with the
result payload. -/
theorem progress_forwarded_in_order
    (python pp module : String) (args : List String) (handle : Option Bool)
    (stderr rawR : String) (pls : List (String × PythonEvent)) (eR : PythonEvent) (d : Json)
    (hp : ∀ p ∈ pls, isBlank p.1 = false ∧ p.2.event = "progress")
    (hraw : isBlank rawR = false) (heR : eR.event = "result") (hd : eR.data = some d) :
    ((run_python_module python pp module args handle none
        (pls.map (fun p => Line.text p.1 (some p.2)) ++ [Line.text rawR (some eR)])
        stderr).emissions.filterMap progressOf
      = pls.map (fun p => mkProgress p.2)) ∧
    (run_python_module python pp module args handle none
        (pls.map (fun p => Line.text p.1 (some p.2)) ++ [Line.text rawR (some eR)])
        stderr).outcome = .ok d := by
  have hst : ((pls.map (fun p => Line.text p.1 (some p.2))) ++
      [Line.text rawR (some eR)]).foldl processLine RouterState.init =
      { emitted := pls.map (fun p => Emission.progress (mkProgress p.2)),
        result := eR.data, error_msg := none, error_code := none } := by
    rw [List.foldl_append, foldl_progress_lines pls RouterState.init hp, List.foldl_cons,
      processLine_result _ _ _ hraw heR]
    rfl
  constructor
  · rw [run_emissions_eq, hst]
    simp only [List.filterMap_cons, progressOf, List.filterMap_append,
      stderrLogs_no_progress, filterMap_progress_mk, List.append_nil]
  · rw [run_outcome_eq, hst]
    exact finalize_ok module pp stderr _ d rfl hd

/-- Witness for `progress_forwarded_in_order` at a concrete input with two
progress lines. -/
theorem progress_forwarded_in_order_witness :
    ((run_python_module "py" "/p" "download" [] none none
        ([("p1", { event := "progress", percent := some 5 }),
          ("p2", { event := "progress", stage := some "mux" })].map
            (fun p => Line.text p.1 (some p.2)) ++
          [Line.text "r" (some { event := "result", data := some (.str "done") })])
        "").emissions.filterMap progressOf
      = [⟨"", 5, 0, 0, 0⟩, ⟨"mux", 0, 0, 0, 0⟩]) ∧
    (run_python_module "py" "/p" "download" [] none none
        ([("p1", { event := "progress", percent := some 5 }),
          ("p2", { event := "progress", stage := some "mux" })].map
            (fun p => Line.text p.1 (some p.2)) ++
          [Line.text "r" (some { event := "result", data := some (.str "done") })])
        "").outcome = .ok (.str "done") :=
  progress_forwarded_in_order "py" "/p" "download" [] none "" "r"
    [("p1", { event := "progress", percent := some 5 }),
     ("p2", { event := "progress", stage := some "mux" })]
    { event := "result", data := some (.str "done") } (.str "done")
    (by decide) (by decide) rfl rfl

/-! ## Claim C2 -/

/-- Claim C2: a `start_download` call while the flag is set is rejected with
"A download is already in progress", changes nothing and records no effect
(in particular spawns no process); when the flag is clear, the call's effect
trace starts with setting the flag (so the flag is set before the spawn)
and ends with clearing it, and the state it returns has the flag clear —
for every spawn outcome and stdout stream, i.e. on the success,
worker-error and spawn-failure paths alike. -/
theorem start_download_guard_bracket (st : DownloadState) (python pp : String)
    (request : DownloadRequest) (spawnErr : Option String)
    (lines : List Line) (stderr : String) :
    (st.is_downloading = true →
        (start_download st python pp request spawnErr lines stderr).outcome
            = .error "A download is already in progress" ∧
        (start_download st python pp request spawnErr lines stderr).actions = [] ∧
        (start_download st python pp request spawnErr lines stderr).state = st) ∧
    (st.is_downloading = false →
        (start_download st python pp request spawnErr lines stderr).state.is_downloading
            = false ∧
        (start_download st python pp request spawnErr lines stderr).actions.head?
            = some (.setFlag true) ∧
        (start_download st python pp request spawnErr lines stderr).actions.getLast?
            = some (.setFlag false)) := by
  constructor
  · intro hbusy
    unfold start_download
    rw [hbusy]
    exact ⟨rfl, rfl, rfl⟩
  · intro hidle
    unfold start_download
    rw [hidle]
    cases spawnErr with
    | none => exact ⟨rfl, rfl, rfl⟩
    | some e => exact ⟨rfl, rfl, rfl⟩

/-- Witness for `start_download_guard_bracket` at concrete states. -/
theorem start_download_guard_bracket_witness :
    (start_download ⟨false, true⟩ "py" "/p"
        { url := "u", quality := "best", output_dir := "/o",
          audio_only := false, sponsorblock := false } none [] "").outcome
      = .error "A download is already in progress" ∧
    (start_download ⟨false, false⟩ "py" "/p"
        { url := "u", quality := "best", output_dir := "/o",
          audio_only := false, sponsorblock := false } none [] "").state.is_downloading
      = false :=
  ⟨((start_download_guard_bracket ⟨false, true⟩ "py" "/p"
      { url := "u", quality := "best", output_dir := "/o",
        audio_only := false, sponsorblock := false } none [] "").1 rfl).1,
   ((start_download_guard_bracket ⟨false, false⟩ "py" "/p"
      { url := "u", quality := "best", output_dir := "/o",
        audio_only := false, sponsorblock := false } none [] "").2 rfl).1⟩

/-! ## Claim C3 -/

/-- Claim C3 counterexample: an invocation started without a cancellation
handle (as every non-download command does) records no `wait` effect — the
supervisor never awaits or reaps the exited worker on that path, so the
claim's "on every code path, including invocations started without a
cancellation handle" fails. -/
theorem no_wait_without_handle_cex :
    Effect.wait ∉ (run_python_module "python3" "/app" "analyze" ["video", "u"] none none
        [Line.text "r" (some { event := "result", data := some Json.null })] "").actions := by
  decide

/-- Claim C3 (amended): when a cancellation handle is supplied, after the
stdout stream is exhausted the supervisor waits on the process and then
clears the handle, leaving it null at return; `kill_process` likewise waits
after killing and always leaves the handle null.  Without a handle the
supervisor records a spawn only — it never waits on or reaps the process. -/
theorem handle_reaped_and_cleared (python pp module : String) (args : List String)
    (holds : Bool) (lines : List Line) (stderr : String) :
    ((run_python_module python pp module args (some holds) none lines stderr).actions
        = [.spawn module args, .storeHandle, .wait, .clearHandle] ∧
      (run_python_module python pp module args (some holds) none lines stderr).handleAfter
        = some false) ∧
    (kill_process true = ([.kill, .wait, .clearHandle], false) ∧
      kill_process false = ([.clearHandle], false)) ∧
    (run_python_module python pp module args none none lines stderr).actions
        = [.spawn module args] :=
  ⟨⟨run_actions_with_handle python pp module args holds lines stderr,
    run_handleAfter_with_handle python pp module args holds lines stderr⟩,
   ⟨rfl, rfl⟩,
   run_actions_no_handle python pp module args lines stderr⟩

/-- Witness for `handle_reaped_and_cleared` at a concrete input. -/
theorem handle_reaped_and_cleared_witness :
    (run_python_module "py" "/p" "download" ["run"] (some false) none [] "").actions
      = [.spawn "download" ["run"], .storeHandle, .wait, .clearHandle] ∧
    (run_python_module "py" "/p" "download" ["run"] (some false) none [] "").handleAfter
      = some false :=
  (handle_reaped_and_cleared "py" "/p" "download" ["run"] false [] "").1

/-! ## Claim C9 -/

/-- Claim C9: `cancel_download` always returns without error; when no
process is referenced it records no kill (a pure no-op on the process);
after any cancel the flag is clear, the handle is clear, and the
cancellation notification is among the emissions. -/
theorem cancel_without_process_noop (st : DownloadState) :
    (cancel_download st).outcome = .ok () ∧
    (st.processHolds = false →
        (cancel_download st).actions = [.clearHandle, .setFlag false] ∧
        Effect.kill ∉ (cancel_download st).actions) ∧
    (cancel_download st).state.is_downloading = false ∧
    (cancel_download st).state.processHolds = false ∧
    Emission.cancelled ∈ (cancel_download st).emissions := by
  refine ⟨rfl, ?_, rfl, ?_, ?_⟩
  · intro h
    unfold cancel_download kill_process
    rw [h]
    exact ⟨rfl, by decide⟩
  · unfold cancel_download kill_process
    cases h : st.processHolds <;> simp [h]
  · simp [cancel_download]

/-- Witness for `cancel_without_process_noop` at a concrete state. -/
theorem cancel_without_process_noop_witness :
    (cancel_download ⟨false, true⟩).outcome = .ok () ∧
    (cancel_download ⟨false, true⟩).actions = [.clearHandle, .setFlag false] :=
  ⟨(cancel_without_process_noop ⟨false, true⟩).1,
   ((cancel_without_process_noop ⟨false, true⟩).2.1 rfl).1⟩

/-! ## Claim C6 -/

/-- Rules out the degenerate collision where a user-supplied request string
(or a rendered JSON argument) is itself the literal `--sponsorblock`, so
that membership of the flag in the argument vector reflects the flag push
at download.rs:80–82 and nothing else. -/
def sponsorArgFree (r : DownloadRequest) : Bool :=
  r.url != "--sponsorblock" && r.quality != "--sponsorblock" &&
  r.output_dir != "--sponsorblock" &&
  (match r.trim_start with | some s => s != "--sponsorblock" | none => true) &&
  (match r.trim_end with | some s => s != "--sponsorblock" | none => true) &&
  (match r.cookies_browser with | some s => s != "--sponsorblock" | none => true) &&
  (match r.cookies_profile with | some s => s != "--sponsorblock" | none => true) &&
  (match r.bitrate_mode with | some s => s != "--sponsorblock" | none => true) &&
  (match r.custom_bitrate with | some n => toString n != "--sponsorblock" | none => true) &&
  (chaptersToJson r.chapters != "--sponsorblock") &&
  (match r.per_resolution with | some m => perResToJson m != "--sponsorblock" | none => true)

/-- Claim C6: the dispatched argument vector contains the SponsorBlock flag
exactly when the request asked for SponsorBlock and supplied no non-empty
chapter list — so a non-empty `chapters` list silently forces the flag off,
and an empty or absent list keeps it. -/
theorem sponsorblock_flag_membership (r : DownloadRequest)
    (h : sponsorArgFree r = true) :
    "--sponsorblock" ∈ buildDownloadArgs r ↔
      (r.sponsorblock = true ∧ hasChapters r = false) := by
  unfold sponsorArgFree at h
  simp only [Bool.and_eq_true, bne_iff_ne, ne_eq] at h
  obtain ⟨⟨⟨⟨⟨⟨⟨⟨⟨⟨h1, h2⟩, h3⟩, h4⟩, h5⟩, h6⟩, h7⟩, h8⟩, h9⟩, h10⟩, h11⟩ := h
  have hbA : "--sponsorblock" ∉ ["run", "--url", r.url, "--quality", r.quality,
      "--output-dir", r.output_dir] := by
    simp [Ne.symm h1, Ne.symm h2, Ne.symm h3]
  have hbB : "--sponsorblock" ∉ (if r.audio_only then ["--audio-only"] else []) := by
    cases r.audio_only <;> simp
  have hbD : "--sponsorblock" ∉
      (if hasChapters r then ["--chapters", chaptersToJson r.chapters] else []) := by
    by_cases hch : hasChapters r = true <;>
      simp [hch, Ne.symm h10]
  have hbE : "--sponsorblock" ∉
      (match r.trim_start with | some s => ["--trim-start", s] | none => []) := by
    cases hts : r.trim_start with
    | none => simp
    | some s => rw [hts] at h4; simp only [bne_iff_ne, ne_eq] at h4; simp [Ne.symm h4]
  have hbF : "--sponsorblock" ∉
      (match r.trim_end with | some s => ["--trim-end", s] | none => []) := by
    cases hts : r.trim_end with
    | none => simp
    | some s => rw [hts] at h5; simp only [bne_iff_ne, ne_eq] at h5; simp [Ne.symm h5]
  have hbG : "--sponsorblock" ∉
      (match r.cookies_browser with | some s => ["--cookies-browser", s] | none => []) := by
    cases hts : r.cookies_browser with
    | none => simp
    | some s => rw [hts] at h6; simp only [bne_iff_ne, ne_eq] at h6; simp [Ne.symm h6]
  have hbH : "--sponsorblock" ∉
      (match r.cookies_profile with | some s => ["--cookies-profile", s] | none => []) := by
    cases hts : r.cookies_profile with
    | none => simp
    | some s => rw [hts] at h7; simp only [bne_iff_ne, ne_eq] at h7; simp [Ne.symm h7]
  have hbI : "--sponsorblock" ∉
      (match r.bitrate_mode with | some s => ["--bitrate-mode", s] | none => []) := by
    cases hts : r.bitrate_mode with
    | none => simp
    | some s => rw [hts] at h8; simp only [bne_iff_ne, ne_eq] at h8; simp [Ne.symm h8]
  have hbJ : "--sponsorblock" ∉
      (match r.custom_bitrate with
        | some n => ["--custom-bitrate", toString n] | none => []) := by
    cases hts : r.custom_bitrate with
    | none => simp
    | some n => rw [hts] at h9; simp only [bne_iff_ne, ne_eq] at h9; simp [Ne.symm h9]
  have hbK : "--sponsorblock" ∉
      (match r.per_resolution with
        | some m => ["--per-res-bitrates", perResToJson m] | none => []) := by
    cases hts : r.per_resolution with
    | none => simp
    | some m => rw [hts] at h11; simp only [bne_iff_ne, ne_eq] at h11; simp [Ne.symm h11]
  unfold buildDownloadArgs
  simp only [List.mem_append, hbA, hbB, hbD, hbE, hbF, hbG, hbH, hbI, hbJ, hbK,
    or_false, false_or]
  cases hs : r.sponsorblock <;> by_cases hch : hasChapters r = true <;>
    simp [hch]

/-- Witness for `sponsorblock_flag_membership`: with no chapters and
`sponsorblock: true` the flag is dispatched; with a non-empty chapter list
it is not. -/
theorem sponsorblock_flag_membership_witness :
    "--sponsorblock" ∈ buildDownloadArgs
      { url := "u", quality := "best", output_dir := "/o",
        audio_only := false, sponsorblock := true } ∧
    "--sponsorblock" ∉ buildDownloadArgs
      { url := "u", quality := "best", output_dir := "/o",
        audio_only := false, sponsorblock := true,
        chapters := some [{ title := "intro", start_time := 0, end_time := 30 }] } :=
  ⟨(sponsorblock_flag_membership
      { url := "u", quality := "best", output_dir := "/o",
        audio_only := false, sponsorblock := true } (by decide)).mpr ⟨rfl, rfl⟩,
   fun hmem =>
     absurd ((sponsorblock_flag_membership
        { url := "u", quality := "best", output_dir := "/o",
          audio_only := false, sponsorblock := true,
          chapters := some [{ title := "intro", start_time := 0, end_time := 30 }] }
        (by decide)).mp hmem).2 (by decide)⟩
